import Mathlib

/-!
# Driver login portal — trip lifecycle and fare settlement, verified

Shallow embedding of the trip lifecycle manager and the settlement
calculator of the driver duty-trip portal.

* `calculateSettlement` embeds `calculateSettlement` from
  `src/acting-driver/index.tsx` (lines 56–88).
* `startDuty` embeds the atomic conditional claim update of `startDuty`
  (`index.tsx` lines 121–151) and `verifyOtpAndStartTrip`
  (`services/tripService.ts` lines 19–39): both issue the same
  `update ... match {otp, status: pending} ... single()` statement.
* `endDuty` embeds the end-of-duty update of `endDuty`
  (`index.tsx` lines 153–175).
* `stopTripAndCalculateAmount` embeds the guarded service-layer complete
  (`services/tripService.ts` lines 41–74).

Timestamps are modelled as the pair of the JS `Date` observations the
code makes of them: `getTime()` (epoch milliseconds, an integer) and
`getHours()` (the local wall-clock hour of day). JS number arithmetic
on these quantities is exact (the magnitudes involved are far below
2^53), so it is embedded as exact rational arithmetic; `Math.round`
is `round` (⌊x + 1/2⌋, the same half-up rule) and `Math.ceil` is `⌈·⌉`.
A supabase `update ... single()` request is one transaction: it applies
the update to every matching row and errors (rolling back) unless
exactly one row matched.
-/

/-- `type TripType = 'city' | 'outstation'` (src/acting-driver/index.tsx). -/
inductive TripType
  | city
  | outstation
deriving DecidableEq, Repr

/-- `type TripStatus = 'pending' | 'started' | 'ended'` (src/acting-driver/index.tsx,
src/unnamed/part_000). `pending`/`started`/`ended` are the spec's
`pending`/`active`/`completed`. -/
inductive TripStatus
  | pending
  | started
  | ended
deriving DecidableEq, Repr

/-- A timestamp as the code observes it: `ms` is `Date.getTime()` (epoch
milliseconds), `hour` is `Date.getHours()` (local wall-clock hour of day
of the same instant). -/
structure Timestamp where
  ms : Int
  hour : Nat
deriving DecidableEq, Repr

/-- `interface Trip` (src/acting-driver/index.tsx lines 13–22): `otp`,
`trip_type`, `status`, `driver_id`, nullable `start_time`, `end_time`,
`amount`, `night_charge`. The spec's names: `code`, `serviceTier`,
`state`, `driverId`, `startedAt`, `endedAt`, `billedAmount`,
`nightSurcharge`. -/
structure Trip where
  otp : String
  trip_type : TripType
  status : TripStatus
  driver_id : String
  start_time : Option Timestamp
  end_time : Option Timestamp
  amount : Option Int
  night_charge : Option Int
deriving DecidableEq, Repr

/-- `const CITY_RATE = 150` (index.tsx line 5). -/
def CITY_RATE : ℚ := 150

/-- `const CITY_MIN_HOURS = 4` (index.tsx line 6). -/
def CITY_MIN_HOURS : ℚ := 4

/-- `const CITY_NIGHT_CHARGE_AMOUNT = 200` (index.tsx line 7). -/
def CITY_NIGHT_CHARGE_AMOUNT : Int := 200

/-- `const OUTSTATION_RATE = 1500` (index.tsx line 8). -/
def OUTSTATION_RATE : Int := 1500

/-- `const OUTSTATION_BLOCK_HOURS = 12` (index.tsx line 9). -/
def OUTSTATION_BLOCK_HOURS : ℚ := 12

/-- Embeds `calculateSettlement` (src/acting-driver/index.tsx lines 56–88).
Returns the `{ total, nightCharge }` pair. Absent timestamps yield
`(0, 0)`; city: `Math.round(max(4, hours) * 150 + nc)` with
`nc = 200` iff `end.getHours() >= 22`; outstation:
`Math.ceil(hours / 12) * 1500` and night charge `0`. -/
def calculateSettlement (t : Trip) : Int × Int :=
  match t.start_time, t.end_time with
  | some startTs, some endTs =>
    let diffMs : Int := endTs.ms - startTs.ms
    let hours : ℚ := (diffMs : ℚ) / (1000 * 60 * 60)
    match t.trip_type with
    | TripType.city =>
      let billableHours : ℚ := max CITY_MIN_HOURS hours
      let baseFare : ℚ := billableHours * CITY_RATE
      let nc : Int := if 22 ≤ endTs.hour then CITY_NIGHT_CHARGE_AMOUNT else 0
      (round (baseFare + (nc : ℚ)), nc)
    | TripType.outstation =>
      let blocks : Int := ⌈hours / OUTSTATION_BLOCK_HOURS⌉
      (blocks * OUTSTATION_RATE, 0)
  | _, _ => (0, 0)

/-- The spec's settlement calculator signature
`settle(serviceTier, startedAt, endedAt) -> (billedAmount, nightSurcharge)`:
`calculateSettlement` applied to the only fields it reads. -/
def settle (tier : TripType) (startedAt endedAt : Option Timestamp) : Int × Int :=
  calculateSettlement
    { otp := "", trip_type := tier, status := TripStatus.started, driver_id := "",
      start_time := startedAt, end_time := endedAt, amount := none, night_charge := none }

/-- The error taxonomy of the lifecycle operations.
`invalidCode` is the claim failure ("Invalid Code. Please check the OTP." /
"Invalid OTP or Trip already in progress/finished."), `notActive` is the
complete guard failure ("Cannot end a trip that hasn't started."),
`notFound` is a missing row ("Trip data not found." / PGRST116 on the
end-of-duty update). -/
inductive LifecycleError
  | invalidCode
  | notActive
  | notFound
deriving DecidableEq, Repr

/-- The row condition of the claim update:
`.match({ otp: otpValue, status: 'pending' })`. -/
def matchesClaim (otp : String) (u : Trip) : Bool :=
  u.otp == otp && u.status == TripStatus.pending

/-- The column writes of the claim update:
`{ status: 'started', start_time: now, driver_id: driverId }`. -/
def claimUpdate (driverId : String) (now : Timestamp) (u : Trip) : Trip :=
  { u with status := TripStatus.started, start_time := some now,
           driver_id := driverId }

/-- One row of the registry after the claim update statement ran. -/
def claimRow (otp driverId : String) (now : Timestamp) (u : Trip) : Trip :=
  if matchesClaim otp u then claimUpdate driverId now u else u

/-- Embeds the claim transition: the atomic conditional update issued both
by `startDuty` (index.tsx lines 135–141) and by `verifyOtpAndStartTrip`
(tripService.ts lines 19–28):
`update({status:'started', start_time: now, driver_id}).match({otp, status:'pending'}).select().single()`.
The update and the `single()` check are one transaction: if exactly one
row matches, it is rewritten and returned; otherwise nothing changes and
the caller surfaces the invalid-code error. -/
def startDuty (db : List Trip) (otp driverId : String) (now : Timestamp) :
    List Trip × Except LifecycleError Trip :=
  match db.filter (matchesClaim otp) with
  | [t] => (db.map (claimRow otp driverId now),
            Except.ok (claimUpdate driverId now t))
  | _ => (db, Except.error LifecycleError.invalidCode)

/-- The column writes of the end-of-duty update in `endDuty`
(index.tsx lines 159–165):
`{ status: 'ended', end_time: endTime, amount: total, night_charge: nightCharge }`. -/
def completeUpdate (endTime : Timestamp) (total nightCharge : Int) (u : Trip) : Trip :=
  { u with status := TripStatus.ended, end_time := some endTime,
           amount := some total, night_charge := some nightCharge }

/-- One row of the registry after the end-of-duty update statement ran
(`.eq('otp', otp)` is its only row condition). -/
def completeRow (otp : String) (endTime : Timestamp) (total nightCharge : Int)
    (u : Trip) : Trip :=
  if u.otp == otp then completeUpdate endTime total nightCharge u else u

/-- Embeds `endDuty` (index.tsx lines 153–175): compute
`calculateSettlement({...activeTrip, end_time: endTime})`, then
`update({status:'ended', end_time, amount, night_charge}).eq('otp', activeTrip.otp).select().single()`.
`activeTrip` is the caller's cached copy of the trip; the update is keyed
only by its code. -/
def endDuty (db : List Trip) (activeTrip : Trip) (endTime : Timestamp) :
    List Trip × Except LifecycleError Trip :=
  let s := calculateSettlement { activeTrip with end_time := some endTime }
  match db.filter (fun u => u.otp == activeTrip.otp) with
  | [t] => (db.map (completeRow activeTrip.otp endTime s.1 s.2),
            Except.ok (completeUpdate endTime s.1 s.2 t))
  | _ => (db, Except.error LifecycleError.notFound)

/-- `const RATE_PER_HOUR = 150` (tripService.ts line 15). -/
def RATE_PER_HOUR : ℚ := 150

/-- `const MIN_HOURS = 4` (tripService.ts line 16). -/
def MIN_HOURS : ℚ := 4

/-- The amount computed by `stopTripAndCalculateAmount`
(tripService.ts lines 52–59): `Math.round(Math.max(4, diffHours) * 150)`. -/
def stopAmount (startTs now : Timestamp) : Int :=
  round (max MIN_HOURS (((now.ms - startTs.ms : Int) : ℚ) / (1000 * 60 * 60))
         * RATE_PER_HOUR)

/-- One row of the registry after the update statement of
`stopTripAndCalculateAmount` ran:
`update({status:'ended', end_time: now, amount}).eq('otp', otp)`. -/
def stopRow (otp : String) (now : Timestamp) (amt : Int) (u : Trip) : Trip :=
  if u.otp == otp then
    { u with status := TripStatus.ended, end_time := some now, amount := some amt }
  else u

/-- Embeds `stopTripAndCalculateAmount` (tripService.ts lines 41–74):
fetch the trip by code (`select('*').eq('otp', otp).single()`); fail with
the not-found error if it is absent; fail with the not-active error if
`trip.status !== 'started' || !trip.start_time`; otherwise compute the
amount from the stored `start_time` and the current time and persist
`status='ended', end_time, amount` keyed by the code. -/
def stopTripAndCalculateAmount (db : List Trip) (otp : String) (now : Timestamp) :
    List Trip × Except LifecycleError Trip :=
  match db.filter (fun u => u.otp == otp) with
  | [t] =>
    match t.start_time with
    | some startTs =>
      if t.status = TripStatus.started then
        (db.map (stopRow otp now (stopAmount startTs now)),
         Except.ok (stopRow otp now (stopAmount startTs now) t))
      else (db, Except.error LifecycleError.notActive)
    | none => (db, Except.error LifecycleError.notActive)
  | _ => (db, Except.error LifecycleError.notFound)

/-- One concurrent claim call: the code entered and the claiming driver,
with the instant the store would record as `start_time`. -/
structure ClaimReq where
  otp : String
  driverId : String
  now : Timestamp
deriving DecidableEq, Repr

/-- An interleaving of claim calls: each call is one atomic conditional
update against the registry, executed in sequence order. Returns the
outcome of every call. -/
def runClaims : List Trip → List ClaimReq → List (Except LifecycleError Trip)
  | _, [] => []
  | db, r :: rs =>
    ((startDuty db r.otp r.driverId r.now).2) ::
      runClaims (startDuty db r.otp r.driverId r.now).1 rs

/-- Whether a lifecycle outcome is a success. -/
def isOkE : Except LifecycleError Trip → Bool
  | Except.ok _ => true
  | Except.error _ => false

/-- A pending trip awaiting a claim, for the concrete claim run below. -/
def pendingTrip : Trip :=
  { otp := "1234", trip_type := TripType.city, status := TripStatus.pending,
    driver_id := "", start_time := none, end_time := none, amount := none,
    night_charge := none }

/-- Three concurrent claim calls presenting the same code `"1234"`. -/
def threeClaims : List ClaimReq :=
  [⟨"1234", "driver-a", ⟨0, 10⟩⟩, ⟨"1234", "driver-b", ⟨5, 10⟩⟩,
   ⟨"1234", "driver-c", ⟨9, 10⟩⟩]

/-- A zero-duration city trip whose end instant has local hour 23. -/
def lateZeroCityTrip : Trip :=
  { otp := "7421", trip_type := TripType.city, status := TripStatus.started,
    driver_id := "driver-a", start_time := some ⟨0, 23⟩,
    end_time := some ⟨0, 23⟩, amount := none, night_charge := none }

/-- A 6-hour city duty ending at local hour 21 (21:59 is before 22:00). -/
def sixHourCityTrip : Trip :=
  { otp := "2222", trip_type := TripType.city, status := TripStatus.started,
    driver_id := "d", start_time := some ⟨0, 15⟩,
    end_time := some ⟨21600000, 21⟩, amount := none, night_charge := none }

/-- An instant used for the zero-duration outstation run. -/
def noonTs : Timestamp := ⟨1700000000000, 12⟩

/-- A city trip whose end timestamp precedes its start timestamp by one
hour (clock skew). -/
def skewCityTrip : Trip :=
  { otp := "5555", trip_type := TripType.city, status := TripStatus.started,
    driver_id := "d", start_time := some ⟨3600000, 11⟩,
    end_time := some ⟨0, 10⟩, amount := none, night_charge := none }

/-- An active city trip about to be completed. -/
def activeCityTrip : Trip :=
  { otp := "6789", trip_type := TripType.city, status := TripStatus.started,
    driver_id := "drv", start_time := some ⟨0, 9⟩, end_time := none,
    amount := none, night_charge := none }

/-- The end instant used to complete `activeCityTrip`. -/
def fiveHourLaterTs : Timestamp := ⟨18000000, 14⟩

/-- A trip already completed and billed. -/
def completedTrip : Trip :=
  { otp := "9999", trip_type := TripType.city, status := TripStatus.ended,
    driver_id := "drv", start_time := some ⟨0, 9⟩,
    end_time := some ⟨3600000, 10⟩, amount := some 600, night_charge := some 0 }

/-- The instant of the second, re-issued end-of-duty update. -/
def laterTs : Timestamp := ⟨7200000, 11⟩

/-- `calculateSettlement` reads only `trip_type`, `start_time` and
`end_time`, so it coincides with `settle` on those fields. -/
theorem calculateSettlement_eq_settle (t : Trip) :
    calculateSettlement t = settle t.trip_type t.start_time t.end_time := by
  cases t
  rfl

/-- A claim-updated row is no longer `pending`, so it matches no claim
condition. -/
theorem matchesClaim_claimUpdate (c d : String) (n : Timestamp) (u : Trip) :
    matchesClaim c (claimUpdate d n u) = false := by
  simp [matchesClaim, claimUpdate]

/-- A row that did not match a claim condition still does not match it
after any claim update statement ran. -/
theorem matchesClaim_claimRow_of_not (c c' d : String) (n : Timestamp) (u : Trip)
    (h : matchesClaim c u = false) :
    matchesClaim c (claimRow c' d n u) = false := by
  unfold claimRow
  split
  · exact matchesClaim_claimUpdate c d n u
  · exact h

/-- After a claim update statement for code `c` ran over a row, the row
does not match the claim condition for `c`. -/
theorem matchesClaim_claimRow_self (c d : String) (n : Timestamp) (u : Trip) :
    matchesClaim c (claimRow c d n u) = false := by
  unfold claimRow
  split
  · exact matchesClaim_claimUpdate c d n u
  · next h => simpa using h

/-- If no row matches the claim condition, the claim fails with the
invalid-code error and the registry is unchanged. -/
theorem startDuty_of_no_match (db : List Trip) (c d : String) (n : Timestamp)
    (h : db.filter (matchesClaim c) = []) :
    startDuty db c d n = (db, Except.error LifecycleError.invalidCode) := by
  unfold startDuty
  rw [h]

/-- A failed claim reports exactly the invalid-code error. -/
theorem startDuty_error_shape (db : List Trip) (c d : String) (n : Timestamp)
    (e : LifecycleError) (h : (startDuty db c d n).2 = Except.error e) :
    e = LifecycleError.invalidCode := by
  unfold startDuty at h
  split at h
  · simp at h
  · simpa using h.symm

/-- A successful claim leaves the registry with every row rewritten by
the claim update statement. -/
theorem startDuty_ok_shape (db : List Trip) (c d : String) (n : Timestamp)
    (t : Trip) (h : (startDuty db c d n).2 = Except.ok t) :
    (startDuty db c d n).1 = db.map (claimRow c d n) := by
  unfold startDuty at h ⊢
  split at h
  · simp
  · simp at h

/-- No row of the registry matches the claim condition for `c` after the
claim update statement for `c` ran over the whole registry. -/
theorem filter_matchesClaim_map_claimRow (db : List Trip) (c d : String)
    (n : Timestamp) :
    (db.map (claimRow c d n)).filter (matchesClaim c) = [] := by
  rw [List.filter_eq_nil_iff]
  intro v hv
  rcases List.mem_map.mp hv with ⟨u, _, rfl⟩
  simp [matchesClaim_claimRow_self]

/-- Any claim step (on any code) preserves the absence of a pending row
for code `c`. -/
theorem startDuty_preserves_no_match (db : List Trip) (c c' d : String)
    (n : Timestamp) (h : db.filter (matchesClaim c) = []) :
    ((startDuty db c' d n).1).filter (matchesClaim c) = [] := by
  unfold startDuty
  split
  · rw [List.filter_eq_nil_iff]
    intro v hv
    rcases List.mem_map.mp hv with ⟨u, hu, rfl⟩
    have hnu : matchesClaim c u = false := by
      have := List.filter_eq_nil_iff.mp h u hu
      simpa using this
    simp [matchesClaim_claimRow_of_not c c' d n u hnu]
  · simpa using h

/-- Once no pending row for `c` is left, every later claim on `c`
fails. -/
theorem runClaims_all_fail (reqs : List ClaimReq) :
    ∀ db : List Trip, ∀ c : String, (∀ r ∈ reqs, r.otp = c) →
      db.filter (matchesClaim c) = [] →
      (runClaims db reqs).countP isOkE = 0 := by
  induction reqs with
  | nil => intro db c _ _; rfl
  | cons r rs ih =>
    intro db c hc h
    have hr : r.otp = c := hc r (List.mem_cons_self r rs)
    have hstep : startDuty db r.otp r.driverId r.now =
        (db, Except.error LifecycleError.invalidCode) := by
      rw [hr]; exact startDuty_of_no_match db c r.driverId r.now h
    show ((startDuty db r.otp r.driverId r.now).2 ::
        runClaims (startDuty db r.otp r.driverId r.now).1 rs).countP isOkE = 0
    rw [hstep]
    have hrest := ih db c (fun x hx => hc x (List.mem_cons_of_mem r hx)) h
    simpa [List.countP_cons, isOkE] using hrest

/-- Every claim outcome is a success or the invalid-code error. -/
theorem runClaims_fail_shape (reqs : List ClaimReq) :
    ∀ db : List Trip, ∀ res ∈ runClaims db reqs, isOkE res = false →
      res = Except.error LifecycleError.invalidCode := by
  induction reqs with
  | nil => intro db res h; simp [runClaims] at h
  | cons r rs ih =>
    intro db res hres hfail
    rw [show runClaims db (r :: rs) =
        (startDuty db r.otp r.driverId r.now).2 ::
          runClaims (startDuty db r.otp r.driverId r.now).1 rs from rfl] at hres
    rcases List.mem_cons.mp hres with h | h
    · subst h
      cases hr : (startDuty db r.otp r.driverId r.now).2 with
      | ok t => rw [hr] at hfail; simp [isOkE] at hfail
      | error e =>
        rw [startDuty_error_shape db r.otp r.driverId r.now e hr]
    · exact ih _ res h hfail

/-- C1: for every code, at most one claim ever succeeds. In any
interleaving of concurrent `claim` calls carrying the same code — each
call one atomic conditional update whose guard is "current state is
`pending`" — at most one call succeeds, and every other call fails with
the invalid-code error. -/
theorem runClaims_countP_le_one (reqs : List ClaimReq) :
    ∀ (db : List Trip) (c : String), (∀ r ∈ reqs, r.otp = c) →
      (runClaims db reqs).countP isOkE ≤ 1 := by
  induction reqs with
  | nil => intro db c _; simp [runClaims]
  | cons r rs ih =>
    intro db c hc
    have hr : r.otp = c := hc r (List.mem_cons_self r rs)
    have hrest : ∀ x ∈ rs, x.otp = c := fun x hx => hc x (List.mem_cons_of_mem r hx)
    show ((startDuty db r.otp r.driverId r.now).2 ::
        runClaims (startDuty db r.otp r.driverId r.now).1 rs).countP isOkE ≤ 1
    cases hres : (startDuty db r.otp r.driverId r.now).2 with
    | error e =>
      have := ih (startDuty db r.otp r.driverId r.now).1 c hrest
      simpa [List.countP_cons, hres, isOkE] using this
    | ok t =>
      have hmap : (startDuty db r.otp r.driverId r.now).1 =
          db.map (claimRow r.otp r.driverId r.now) :=
        startDuty_ok_shape db r.otp r.driverId r.now t hres
      have hnil : ((startDuty db r.otp r.driverId r.now).1).filter
          (matchesClaim c) = [] := by
        rw [hmap, hr]
        exact filter_matchesClaim_map_claimRow db c r.driverId r.now
      have hzero := runClaims_all_fail rs
        (startDuty db r.otp r.driverId r.now).1 c hrest hnil
      simp [List.countP_cons, hres, isOkE, hzero]

/-- C1: for every code, at most one claim ever succeeds. In any
interleaving of concurrent `claim` calls carrying the same code — each
call one atomic conditional update whose guard is "current state is
`pending`" — at most one call succeeds, and every other call fails with
the invalid-code error. -/
theorem claim_at_most_one_succeeds (db : List Trip) (c : String)
    (reqs : List ClaimReq) (hc : ∀ r ∈ reqs, r.otp = c) :
    (runClaims db reqs).countP isOkE ≤ 1 ∧
    ∀ res ∈ runClaims db reqs, isOkE res = false →
      res = Except.error LifecycleError.invalidCode :=
  ⟨runClaims_countP_le_one reqs db c hc, runClaims_fail_shape reqs db⟩

/-- Witness for C1: three concurrent claims of the code of a pending trip;
at most one of them succeeds and every failing one reports the
invalid-code error. -/
theorem claim_at_most_one_succeeds_witness :
    (runClaims [pendingTrip] threeClaims).countP isOkE ≤ 1 ∧
    ∀ res ∈ runClaims [pendingTrip] threeClaims, isOkE res = false →
      res = Except.error LifecycleError.invalidCode :=
  claim_at_most_one_succeeds [pendingTrip] "1234" threeClaims (by decide)

/-- `⌈13/12⌉ = 2`: a fraction of a block rounds up to a full block. -/
theorem ceil_thirteen_twelfths : (⌈(13 : ℚ) / 12⌉ : Int) = 2 := by
  rw [Int.ceil_eq_iff]
  norm_num

/-- C3: with both timestamps present, the night surcharge is `200` iff the
tier is city and the end instant's local hour-of-day is at least 22 (the
start time and the elapsed duration are irrelevant), and it is `0` for
every outstation input. -/
theorem night_surcharge_iff (t : Trip) (sTs eTs : Timestamp)
    (hs : t.start_time = some sTs) (he : t.end_time = some eTs) :
    ((calculateSettlement t).2 = 200 ↔
      t.trip_type = TripType.city ∧ 22 ≤ eTs.hour) ∧
    (t.trip_type = TripType.outstation → (calculateSettlement t).2 = 0) := by
  rcases t with ⟨otp, ty, st, drv, sTime, eTime, amt, ncf⟩
  simp only at hs he
  subst hs he
  cases ty with
  | city =>
    refine ⟨?_, by intro h; exact absurd h (by simp)⟩
    simp only [calculateSettlement, CITY_NIGHT_CHARGE_AMOUNT]
    by_cases h : 22 ≤ eTs.hour
    · simp [h]
    · simp [h]
  | outstation =>
    refine ⟨?_, fun _ => by simp [calculateSettlement]⟩
    simp [calculateSettlement]

/-- Witness for C3 at a city trip ending with local hour 23. -/
theorem night_surcharge_iff_witness :
    ((calculateSettlement
        { otp := "1111", trip_type := TripType.city, status := TripStatus.started,
          driver_id := "d", start_time := some ⟨0, 23⟩,
          end_time := some ⟨3600000, 23⟩, amount := none, night_charge := none }).2
        = 200 ↔
      TripType.city = TripType.city ∧ 22 ≤ (23 : Nat)) ∧
    (TripType.city = TripType.outstation →
      (calculateSettlement
        { otp := "1111", trip_type := TripType.city, status := TripStatus.started,
          driver_id := "d", start_time := some ⟨0, 23⟩,
          end_time := some ⟨3600000, 23⟩, amount := none, night_charge := none }).2
        = 0) :=
  night_surcharge_iff _ ⟨0, 23⟩ ⟨3600000, 23⟩ rfl rfl

/-- Counterexample for C4: a city duty with elapsed duration exactly 0 is
not always billed 600 — ending at local hour 23 it is billed
`round(max(4,0)·150 + 200) = 800`. -/
theorem city_zero_duration_counterexample :
    lateZeroCityTrip.trip_type = TripType.city ∧
    lateZeroCityTrip.start_time = lateZeroCityTrip.end_time ∧
    (calculateSettlement lateZeroCityTrip).1 = 800 ∧
    (calculateSettlement lateZeroCityTrip).1 ≠ 600 := by
  have h : (calculateSettlement lateZeroCityTrip).1 = 800 := by
    norm_num [calculateSettlement, lateZeroCityTrip, CITY_MIN_HOURS, CITY_RATE,
      CITY_NIGHT_CHARGE_AMOUNT]
  exact ⟨rfl, rfl, h, by rw [h]; decide⟩

/-- C4 (amended): for city inputs with both timestamps present, billable
hours are `max(4, elapsedHours)` with the exact fractional elapsed value,
and the billed amount is `round(billableHours·150 + nightSurcharge)`; in
particular a duty of elapsed duration 0 ending before 22:00 is billed 600
and a 6-hour duty ending before 22:00 (e.g. at 21:59) is billed 900. -/
theorem city_settlement_formula (t : Trip) (sTs eTs : Timestamp)
    (hcity : t.trip_type = TripType.city)
    (hs : t.start_time = some sTs) (he : t.end_time = some eTs) :
    (calculateSettlement t).1 =
      round (max 4 (((eTs.ms - sTs.ms : Int) : ℚ) / (1000 * 60 * 60)) * 150
             + ((calculateSettlement t).2 : ℚ)) ∧
    (eTs.ms = sTs.ms → eTs.hour < 22 → (calculateSettlement t).1 = 600) ∧
    (eTs.ms - sTs.ms = 21600000 → eTs.hour < 22 →
      (calculateSettlement t).1 = 900) := by
  rcases t with ⟨otp, ty, st, drv, sTime, eTime, amt, ncf⟩
  simp only at hcity hs he
  subst hcity hs he
  refine ⟨by simp [calculateSettlement, CITY_MIN_HOURS, CITY_RATE], ?_, ?_⟩
  · intro hms hhour
    have hnc : ¬(22 ≤ eTs.hour) := by omega
    simp only [calculateSettlement, CITY_MIN_HOURS, CITY_RATE,
      CITY_NIGHT_CHARGE_AMOUNT, hnc, if_false]
    rw [hms]
    norm_num
  · intro hms hhour
    have hnc : ¬(22 ≤ eTs.hour) := by omega
    simp only [calculateSettlement, CITY_MIN_HOURS, CITY_RATE,
      CITY_NIGHT_CHARGE_AMOUNT, hnc, if_false]
    rw [hms]
    norm_num

/-- Witness for C4 (amended) at the 6-hour city duty `sixHourCityTrip`. -/
theorem city_settlement_formula_witness :
    ((calculateSettlement sixHourCityTrip).1 =
      round (max 4 ((((21600000 : Int) - 0 : Int) : ℚ) / (1000 * 60 * 60)) * 150
             + ((calculateSettlement sixHourCityTrip).2 : ℚ))) ∧
    ((21600000 : Int) = 0 → (21 : Nat) < 22 →
      (calculateSettlement sixHourCityTrip).1 = 600) ∧
    ((21600000 : Int) - 0 = 21600000 → (21 : Nat) < 22 →
      (calculateSettlement sixHourCityTrip).1 = 900) :=
  city_settlement_formula sixHourCityTrip ⟨0, 15⟩ ⟨21600000, 21⟩ rfl rfl rfl

/-- Counterexample for C5: `settle(outstation, t, t)` bills 0, not 1500 —
`Math.ceil(0 / 12) = 0` blocks, so the billed amount is `0 · 1500 = 0`. -/
theorem outstation_zero_duration_counterexample :
    (settle TripType.outstation (some noonTs) (some noonTs)).1 = 0 ∧
    (settle TripType.outstation (some noonTs) (some noonTs)).1 ≠ 1500 := by
  have h : (settle TripType.outstation (some noonTs) (some noonTs)).1 = 0 := by
    norm_num [settle, calculateSettlement, noonTs, OUTSTATION_BLOCK_HOURS,
      OUTSTATION_RATE]
  exact ⟨h, by rw [h]; decide⟩

/-- C5 (amended): a zero-duration outstation trip (start = end, both
present) is billed for zero blocks: `settle(outstation, t, t) = (0, 0)`. -/
theorem outstation_zero_duration (sTs eTs : Timestamp) (h : eTs.ms = sTs.ms) :
    settle TripType.outstation (some sTs) (some eTs) = (0, 0) := by
  simp only [settle, calculateSettlement, OUTSTATION_BLOCK_HOURS, OUTSTATION_RATE]
  rw [h]
  norm_num

/-- Witness for C5 (amended) at the concrete instant `noonTs`. -/
theorem outstation_zero_duration_witness :
    settle TripType.outstation (some noonTs) (some noonTs) = (0, 0) :=
  outstation_zero_duration noonTs noonTs rfl

/-- C6: for outstation inputs with both timestamps present and positive
elapsed time, the billed amount is `⌈elapsedHours/12⌉ · 1500`; an exactly
12-hour duty is billed 1500 (one block) and a 13-hour duty 3000 (two
blocks), independently of the end hour. -/
theorem outstation_block_billing (t : Trip) (sTs eTs : Timestamp)
    (hout : t.trip_type = TripType.outstation)
    (hs : t.start_time = some sTs) (he : t.end_time = some eTs)
    (hpos : sTs.ms < eTs.ms) :
    (calculateSettlement t).1 =
      ⌈(((eTs.ms - sTs.ms : Int) : ℚ) / (1000 * 60 * 60)) / 12⌉ * 1500 ∧
    (eTs.ms - sTs.ms = 43200000 → (calculateSettlement t).1 = 1500) ∧
    (eTs.ms - sTs.ms = 46800000 → (calculateSettlement t).1 = 3000) := by
  rcases t with ⟨otp, ty, st, drv, sTime, eTime, amt, ncf⟩
  simp only at hout hs he
  subst hout hs he
  refine ⟨by simp [calculateSettlement, OUTSTATION_BLOCK_HOURS, OUTSTATION_RATE],
    ?_, ?_⟩
  · intro hms
    simp only [calculateSettlement, OUTSTATION_BLOCK_HOURS, OUTSTATION_RATE]
    rw [hms]
    norm_num
  · intro hms
    simp only [calculateSettlement, OUTSTATION_BLOCK_HOURS, OUTSTATION_RATE]
    rw [hms]
    norm_num [ceil_thirteen_twelfths]

/-- Witness for C6 at a 13-hour outstation duty ending at hour 23. -/
theorem outstation_block_billing_witness :
    ((calculateSettlement
        { otp := "3333", trip_type := TripType.outstation,
          status := TripStatus.started, driver_id := "d",
          start_time := some ⟨0, 10⟩, end_time := some ⟨46800000, 23⟩,
          amount := none, night_charge := none }).1 =
      ⌈((((46800000 : Int) - 0 : Int) : ℚ) / (1000 * 60 * 60)) / 12⌉ * 1500) ∧
    ((46800000 : Int) - 0 = 43200000 →
      (calculateSettlement
        { otp := "3333", trip_type := TripType.outstation,
          status := TripStatus.started, driver_id := "d",
          start_time := some ⟨0, 10⟩, end_time := some ⟨46800000, 23⟩,
          amount := none, night_charge := none }).1 = 1500) ∧
    ((46800000 : Int) - 0 = 46800000 →
      (calculateSettlement
        { otp := "3333", trip_type := TripType.outstation,
          status := TripStatus.started, driver_id := "d",
          start_time := some ⟨0, 10⟩, end_time := some ⟨46800000, 23⟩,
          amount := none, night_charge := none }).1 = 3000) :=
  outstation_block_billing _ ⟨0, 10⟩ ⟨46800000, 23⟩ rfl rfl rfl (by decide)

/-- C7: the settlement function is total and never fails — with either
timestamp absent it returns exactly `(0, 0)`, for both tiers. -/
theorem settlement_defensive_default (t : Trip)
    (h : t.start_time = none ∨ t.end_time = none) :
    calculateSettlement t = (0, 0) := by
  rcases t with ⟨otp, ty, st, drv, sTime, eTime, amt, ncf⟩
  rcases h with h | h
  · simp only at h
    subst h
    rfl
  · simp only at h
    subst h
    cases sTime <;> rfl

/-- Witness for C7 at an outstation trip with no end timestamp. -/
theorem settlement_defensive_default_witness :
    calculateSettlement
      { otp := "4444", trip_type := TripType.outstation,
        status := TripStatus.started, driver_id := "d",
        start_time := some ⟨0, 10⟩, end_time := none,
        amount := none, night_charge := none } = (0, 0) :=
  settlement_defensive_default _ (Or.inr rfl)

/-- C10: with both timestamps present and a negative elapsed time
(`endedAt` earlier than `startedAt`), the settlement neither rejects nor
clamps: the city 4-hour minimum absorbs the negative value, billing
`round(600 + nightSurcharge)`, while the outstation block count
`ceil(negativeHours/12)` is at most zero, so the billed amount is ≤ 0. -/
theorem negative_elapsed_settlement (t : Trip) (sTs eTs : Timestamp)
    (hs : t.start_time = some sTs) (he : t.end_time = some eTs)
    (hneg : eTs.ms < sTs.ms) :
    (t.trip_type = TripType.city →
      (calculateSettlement t).1 =
        round ((600 : ℚ) + ((calculateSettlement t).2 : ℚ))) ∧
    (t.trip_type = TripType.outstation → (calculateSettlement t).1 ≤ 0) := by
  rcases t with ⟨otp, ty, st, drv, sTime, eTime, amt, ncf⟩
  simp only at hs he
  subst hs he
  have hdiff : ((eTs.ms - sTs.ms : Int) : ℚ) < 0 := by
    rw [Int.cast_lt_zero]
    omega
  have hhours : ((eTs.ms - sTs.ms : Int) : ℚ) / (1000 * 60 * 60) < 0 :=
    div_neg_of_neg_of_pos hdiff (by norm_num)
  constructor
  · rintro rfl
    simp only [calculateSettlement, CITY_MIN_HOURS, CITY_RATE]
    rw [max_eq_left (le_of_lt (lt_of_lt_of_le hhours (by norm_num)))]
    norm_num
  · rintro rfl
    simp only [calculateSettlement, OUTSTATION_BLOCK_HOURS, OUTSTATION_RATE]
    have hb : (⌈(((eTs.ms - sTs.ms : Int) : ℚ) / (1000 * 60 * 60)) / 12⌉ : Int) ≤ 0 :=
      Int.ceil_le.mpr (by
        exact_mod_cast le_of_lt (div_neg_of_neg_of_pos hhours (by norm_num)))
    have := mul_le_mul_of_nonneg_right hb (show (0 : Int) ≤ 1500 by norm_num)
    simpa using this

/-- Witness for C10 at `skewCityTrip`. -/
theorem negative_elapsed_settlement_witness :
    (skewCityTrip.trip_type = TripType.city →
      (calculateSettlement skewCityTrip).1 =
        round ((600 : ℚ) + ((calculateSettlement skewCityTrip).2 : ℚ))) ∧
    (skewCityTrip.trip_type = TripType.outstation →
      (calculateSettlement skewCityTrip).1 ≤ 0) :=
  negative_elapsed_settlement skewCityTrip ⟨3600000, 11⟩ ⟨0, 10⟩ rfl rfl (by decide)

/-- C2: the end-of-duty transition persists exactly the settlement
calculator's output: after `endDuty`, the stored row for the trip's code
is `ended`, carries the persisted `endedAt`, and its `amount` and
`night_charge` equal `settle(serviceTier, startedAt, endedAt)` computed
at the persisted end timestamp, for both tiers. (`hkey`: codes are the
registry's primary key.) -/
theorem complete_stores_settlement (db : List Trip) (tr : Trip)
    (endTime : Timestamp) (hactive : tr.status = TripStatus.started)
    (hkey : (db.filter (fun u => u.otp == tr.otp)).length ≤ 1)
    (u : Trip) (hu : u ∈ (endDuty db tr endTime).1) (hotp : u.otp = tr.otp) :
    u.status = TripStatus.ended ∧ u.end_time = some endTime ∧
    u.amount = some (settle tr.trip_type tr.start_time (some endTime)).1 ∧
    u.night_charge = some (settle tr.trip_type tr.start_time (some endTime)).2 := by
  have hset : calculateSettlement { tr with end_time := some endTime } =
      settle tr.trip_type tr.start_time (some endTime) := by
    rw [calculateSettlement_eq_settle]
  simp only [endDuty] at hu
  split at hu
  · next t hf =>
    rcases List.mem_map.mp hu with ⟨v, hv, rfl⟩
    by_cases hvo : v.otp = tr.otp
    · simp only [completeRow, hvo, beq_self_eq_true, if_true, completeUpdate]
      simp [hset]
    · exfalso
      apply hvo
      simpa [completeRow, hvo] using hotp
  · next hf =>
    exfalso
    have humem : u ∈ db.filter (fun v => v.otp == tr.otp) :=
      List.mem_filter.mpr ⟨hu, by simp [hotp]⟩
    have hlen : (db.filter (fun v => v.otp == tr.otp)).length = 1 := by
      have h1 : 1 ≤ (db.filter (fun v => v.otp == tr.otp)).length :=
        List.length_pos.mpr (List.ne_nil_of_mem humem)
      omega
    rcases List.length_eq_one.mp hlen with ⟨w, hw⟩
    exact hf w hw

/-- Witness for C2: completing `activeCityTrip` stores exactly the
settlement computed at the persisted end timestamp. -/
theorem complete_stores_settlement_witness :
    (completeUpdate fiveHourLaterTs
        (calculateSettlement { activeCityTrip with end_time := some fiveHourLaterTs }).1
        (calculateSettlement { activeCityTrip with end_time := some fiveHourLaterTs }).2
        activeCityTrip).status = TripStatus.ended ∧
    (completeUpdate fiveHourLaterTs
        (calculateSettlement { activeCityTrip with end_time := some fiveHourLaterTs }).1
        (calculateSettlement { activeCityTrip with end_time := some fiveHourLaterTs }).2
        activeCityTrip).end_time = some fiveHourLaterTs ∧
    (completeUpdate fiveHourLaterTs
        (calculateSettlement { activeCityTrip with end_time := some fiveHourLaterTs }).1
        (calculateSettlement { activeCityTrip with end_time := some fiveHourLaterTs }).2
        activeCityTrip).amount =
      some (settle activeCityTrip.trip_type activeCityTrip.start_time
              (some fiveHourLaterTs)).1 ∧
    (completeUpdate fiveHourLaterTs
        (calculateSettlement { activeCityTrip with end_time := some fiveHourLaterTs }).1
        (calculateSettlement { activeCityTrip with end_time := some fiveHourLaterTs }).2
        activeCityTrip).night_charge =
      some (settle activeCityTrip.trip_type activeCityTrip.start_time
              (some fiveHourLaterTs)).2 :=
  complete_stores_settlement [activeCityTrip] activeCityTrip fiveHourLaterTs rfl
    (by decide)
    (completeUpdate fiveHourLaterTs
        (calculateSettlement { activeCityTrip with end_time := some fiveHourLaterTs }).1
        (calculateSettlement { activeCityTrip with end_time := some fiveHourLaterTs }).2
        activeCityTrip)
    (List.Mem.head []) rfl

/-- C8: `complete` (the guarded service-layer
`stopTripAndCalculateAmount`) on a trip whose state is not active —
`pending` or already `ended` — fails with the not-active error and leaves
the registry, hence every stored field of the trip, unchanged; in
particular retrying it on a completed trip does not re-bill. -/
theorem complete_not_active_fails (db : List Trip) (c : String)
    (now : Timestamp) (t : Trip)
    (hf : db.filter (fun u => u.otp == c) = [t])
    (hna : t.status = TripStatus.pending ∨ t.status = TripStatus.ended) :
    stopTripAndCalculateAmount db c now =
      (db, Except.error LifecycleError.notActive) := by
  have hns : ¬(t.status = TripStatus.started) := by
    rcases hna with h | h <;> simp [h]
  unfold stopTripAndCalculateAmount
  simp only [hf]
  cases hstT : t.start_time with
  | none => simp [hstT]
  | some sTs => simp [hstT, hns]

/-- Witness for C8: retrying the guarded complete on the already-completed
`completedTrip` fails with the not-active error and changes nothing. -/
theorem complete_not_active_fails_witness :
    stopTripAndCalculateAmount [completedTrip] "9999" ⟨7200000, 11⟩ =
      ([completedTrip], Except.error LifecycleError.notActive) :=
  complete_not_active_fails [completedTrip] "9999" ⟨7200000, 11⟩ completedTrip
    (by decide) (Or.inr rfl)

/-- The claim update writes only `status`, `driver_id` and `start_time`:
every other column of every row is preserved. -/
theorem claimRow_writes_only (c d : String) (n : Timestamp) (u : Trip) :
    (claimRow c d n u).otp = u.otp ∧
    (claimRow c d n u).trip_type = u.trip_type ∧
    (claimRow c d n u).end_time = u.end_time ∧
    (claimRow c d n u).amount = u.amount ∧
    (claimRow c d n u).night_charge = u.night_charge := by
  unfold claimRow claimUpdate
  split <;> simp

/-- The end-of-duty update of `endDuty` writes only `status`, `end_time`,
`amount` and `night_charge`. -/
theorem completeRow_writes_only (c : String) (eT : Timestamp) (tot nc : Int)
    (u : Trip) :
    (completeRow c eT tot nc u).otp = u.otp ∧
    (completeRow c eT tot nc u).trip_type = u.trip_type ∧
    (completeRow c eT tot nc u).driver_id = u.driver_id ∧
    (completeRow c eT tot nc u).start_time = u.start_time := by
  unfold completeRow completeUpdate
  split <;> simp

/-- The update of `stopTripAndCalculateAmount` writes only `status`,
`end_time` and `amount`. -/
theorem stopRow_writes_only (c : String) (n : Timestamp) (amt : Int) (u : Trip) :
    (stopRow c n amt u).otp = u.otp ∧
    (stopRow c n amt u).trip_type = u.trip_type ∧
    (stopRow c n amt u).driver_id = u.driver_id ∧
    (stopRow c n amt u).start_time = u.start_time ∧
    (stopRow c n amt u).night_charge = u.night_charge := by
  unfold stopRow
  split <;> simp

/-- A successful `endDuty` leaves the registry with every row rewritten by
the end-of-duty update for the cached trip's code and settlement. -/
theorem endDuty_ok_shape (db : List Trip) (tr : Trip) (eT : Timestamp)
    (t : Trip) (h : (endDuty db tr eT).2 = Except.ok t) :
    (endDuty db tr eT).1 =
      db.map (completeRow tr.otp eT
        (calculateSettlement { tr with end_time := some eT }).1
        (calculateSettlement { tr with end_time := some eT }).2) := by
  unfold endDuty at h ⊢
  split at h
  · simp
  · simp at h

/-- A successful guarded complete leaves the registry with every row
rewritten by its update for some amount. -/
theorem stopTrip_ok_shape (db : List Trip) (c : String) (n : Timestamp)
    (t : Trip) (h : (stopTripAndCalculateAmount db c n).2 = Except.ok t) :
    ∃ amt : Int,
      (stopTripAndCalculateAmount db c n).1 = db.map (stopRow c n amt) := by
  unfold stopTripAndCalculateAmount at h ⊢
  split at h
  · next t' hf =>
    split at h
    · next sTs hst =>
      split at h
      · next hstat =>
        exact ⟨stopAmount sTs n, by simp [hf, hst, hstat]⟩
      · simp at h
    · simp at h
  · simp at h

/-- A claim step never touches a trip whose `start_time` is already set,
given the data-model invariant that pending trips carry no start
timestamp: the row survives unchanged. -/
theorem startDuty_preserves_set_start (db : List Trip) (c d : String)
    (n : Timestamp) (u : Trip) (s : Timestamp) (hu : u ∈ db)
    (hset : u.start_time = some s)
    (hinv : u.status = TripStatus.pending → u.start_time = none) :
    u ∈ (startDuty db c d n).1 := by
  have hnm : matchesClaim c u = false := by
    unfold matchesClaim
    by_cases hp : u.status = TripStatus.pending
    · rw [hinv hp] at hset
      cases hset
    · simp [hp]
  unfold startDuty
  split
  · exact List.mem_map.mpr ⟨u, hu, by simp [claimRow, hnm]⟩
  · exact hu

/-- The guarded complete never touches a trip whose `end_time` is already
set, given the data-model invariant that active trips carry no end
timestamp: the row survives unchanged. -/
theorem stopTrip_preserves_set_end (db : List Trip) (c : String)
    (n : Timestamp) (u : Trip) (e : Timestamp) (hu : u ∈ db)
    (hset : u.end_time = some e)
    (hinv : u.status = TripStatus.started → u.end_time = none) :
    u ∈ (stopTripAndCalculateAmount db c n).1 := by
  unfold stopTripAndCalculateAmount
  split
  · next t hf =>
    split
    · next sTs hst =>
      split
      · next hstat =>
        refine List.mem_map.mpr ⟨u, hu, ?_⟩
        have hne : (u.otp == c) = false := by
          by_cases ho : u.otp = c
          · exfalso
            have humem : u ∈ db.filter (fun v => v.otp == c) :=
              List.mem_filter.mpr ⟨hu, by simp [ho]⟩
            rw [hf] at humem
            have hut : u = t := by simpa using humem
            subst hut
            rw [hinv hstat] at hset
            cases hset
          · simp [ho]
        simp [stopRow, hne]
      · exact hu
    · exact hu
  · exact hu

/-- Counterexample for C9: `endedAt` is not immutable once set — the
`endDuty` update is keyed only by the code, so invoking it again with a
cached copy of the already-completed `completedTrip` overwrites the
stored `end_time` (and re-bills). -/
theorem ended_at_mutation_counterexample :
    completedTrip.status = TripStatus.ended ∧
    completedTrip.end_time = some ⟨3600000, 10⟩ ∧
    (endDuty [completedTrip] completedTrip laterTs).1.map Trip.end_time
      = [some laterTs] ∧
    some laterTs ≠ completedTrip.end_time := by
  exact ⟨rfl, rfl, rfl, by decide⟩

/-- C9 (amended): the frame conditions of the lifecycle transitions. A
successful claim rewrites the registry by a row update that writes only
`status`, `driver_id` and `start_time`; a successful complete rewrites it
by a row update that writes only `status`, `end_time`, `amount` (and
`night_charge` for `endDuty`); `otp` and `trip_type` are never modified
by any operation; a trip whose `start_time` is set is never touched by a
claim, and a trip whose `end_time` is set is never touched by the guarded
complete (under the data-model invariants that pending trips have no
start timestamp and active trips no end timestamp). The unguarded
`endDuty` update, keyed only by the code, is the exception recorded in
the counterexample. -/
theorem lifecycle_frame_conditions :
    (∀ (c d : String) (n : Timestamp) (u : Trip),
      (claimRow c d n u).otp = u.otp ∧
      (claimRow c d n u).trip_type = u.trip_type ∧
      (claimRow c d n u).end_time = u.end_time ∧
      (claimRow c d n u).amount = u.amount ∧
      (claimRow c d n u).night_charge = u.night_charge) ∧
    (∀ (c : String) (eT : Timestamp) (tot nc : Int) (u : Trip),
      (completeRow c eT tot nc u).otp = u.otp ∧
      (completeRow c eT tot nc u).trip_type = u.trip_type ∧
      (completeRow c eT tot nc u).driver_id = u.driver_id ∧
      (completeRow c eT tot nc u).start_time = u.start_time) ∧
    (∀ (c : String) (n : Timestamp) (amt : Int) (u : Trip),
      (stopRow c n amt u).otp = u.otp ∧
      (stopRow c n amt u).trip_type = u.trip_type ∧
      (stopRow c n amt u).driver_id = u.driver_id ∧
      (stopRow c n amt u).start_time = u.start_time ∧
      (stopRow c n amt u).night_charge = u.night_charge) ∧
    (∀ (db : List Trip) (c d : String) (n : Timestamp) (t : Trip),
      (startDuty db c d n).2 = Except.ok t →
      (startDuty db c d n).1 = db.map (claimRow c d n)) ∧
    (∀ (db : List Trip) (tr : Trip) (eT : Timestamp) (t : Trip),
      (endDuty db tr eT).2 = Except.ok t →
      (endDuty db tr eT).1 =
        db.map (completeRow tr.otp eT
          (calculateSettlement { tr with end_time := some eT }).1
          (calculateSettlement { tr with end_time := some eT }).2)) ∧
    (∀ (db : List Trip) (c : String) (n : Timestamp) (t : Trip),
      (stopTripAndCalculateAmount db c n).2 = Except.ok t →
      ∃ amt : Int,
        (stopTripAndCalculateAmount db c n).1 = db.map (stopRow c n amt)) ∧
    (∀ (db : List Trip) (c d : String) (n : Timestamp) (u : Trip) (s : Timestamp),
      u ∈ db → u.start_time = some s →
      (u.status = TripStatus.pending → u.start_time = none) →
      u ∈ (startDuty db c d n).1) ∧
    (∀ (db : List Trip) (c : String) (n : Timestamp) (u : Trip) (e : Timestamp),
      u ∈ db → u.end_time = some e →
      (u.status = TripStatus.started → u.end_time = none) →
      u ∈ (stopTripAndCalculateAmount db c n).1) :=
  ⟨claimRow_writes_only, completeRow_writes_only, stopRow_writes_only,
   startDuty_ok_shape, endDuty_ok_shape, stopTrip_ok_shape,
   startDuty_preserves_set_start, stopTrip_preserves_set_end⟩

/-- Witness for C9 (amended): the claim row update at concrete inputs
preserves `otp`, `trip_type`, `end_time`, `amount` and `night_charge`. -/
theorem lifecycle_frame_conditions_witness :
    (claimRow "1234" "driver-a" ⟨0, 10⟩ pendingTrip).otp = pendingTrip.otp ∧
    (claimRow "1234" "driver-a" ⟨0, 10⟩ pendingTrip).trip_type =
      pendingTrip.trip_type ∧
    (claimRow "1234" "driver-a" ⟨0, 10⟩ pendingTrip).end_time =
      pendingTrip.end_time ∧
    (claimRow "1234" "driver-a" ⟨0, 10⟩ pendingTrip).amount =
      pendingTrip.amount ∧
    (claimRow "1234" "driver-a" ⟨0, 10⟩ pendingTrip).night_charge =
      pendingTrip.night_charge :=
  lifecycle_frame_conditions.1 "1234" "driver-a" ⟨0, 10⟩ pendingTrip
